import Mathlib

/-!
Shallow embedding of `pkg/services/unix_proxy.go` and `pkg/utils/randstr.go`
from the receptor repository, together with theorems settling the
specification's claims about the Unix-socket proxy services and the
random-string utility.

External effects are modelled explicitly:
* the outcome of `utils.UnixSocketListen` (inbound) or
  `netceptor.ListenAndAdvertise` (outbound) is an `Except String Unit`
  argument (`Except.error e` abstracts a non-nil Go error `e`);
* the stream of `Accept` results delivered by the listener is a
  `List AcceptOutcome`: the finite prefix of outcomes delivered so far.
  Reaching the end of the list means the loop is still parked inside
  `Accept` waiting for the next connection;
* the outcome of dialing the opposite transport for the i-th accepted
  connection is `dials i`.  `DialOutcome.stalled` models a dial that never
  returns; whether a stalled dial freezes the accept loop or only its own
  goroutine is exactly what distinguishes the two services' structure.
-/

namespace Receptor

/-- Result of one `Accept` call on a listener: a connection (identified by
its position in the accept stream) or a non-nil error. -/
inductive AcceptOutcome where
  | ok
  | err
  deriving DecidableEq, Repr, Inhabited

/-- Boolean test used to count the successful accepts before the first
accept error. -/
def isOk : AcceptOutcome → Bool
  | AcceptOutcome.ok => true
  | AcceptOutcome.err => false

/-- Result of dialing the opposite transport for one accepted connection:
success, a non-nil error, or a dial that never returns (`stalled`). -/
inductive DialOutcome where
  | ok
  | err
  | stalled
  deriving DecidableEq, Repr, Inhabited

/-- Observable effects of the per-connection goroutine spawned by
`UnixProxyServiceInbound` for one accepted Unix-socket connection `uc`.
The goroutine body is:
`qc, err := s.Dial(node, rservice, tlscfg); if err != nil { logger.Error(...); return }; utils.BridgeConns(uc, ..., qc, ...)`.
`localConnClosed` records whether this goroutine itself executes a
`uc.Close()`; the source contains no such call on any path.  `completed`
is false when the dial stalls (the goroutine never returns). -/
structure InboundConnTask where
  dialAttempted : Bool
  loggedDialError : Bool
  localConnClosed : Bool
  bridged : Bool
  completed : Bool
  deriving DecidableEq, Repr, Inhabited

/-- The per-connection goroutine of `UnixProxyServiceInbound`, as a function
of the outcome of `s.Dial(node, rservice, tlscfg)` for that connection. -/
def inboundConnTask : DialOutcome → InboundConnTask
  | DialOutcome.stalled => ⟨true, false, false, false, false⟩
  | DialOutcome.err => ⟨true, true, false, false, true⟩
  | DialOutcome.ok => ⟨true, false, false, true, true⟩

/-- Observable state of the accept-loop goroutine of
`UnixProxyServiceInbound` after consuming a prefix of accept outcomes.
`acceptsAttempted` counts calls to `uli.Accept()`; `tasksSpawned` counts
spawned per-connection goroutines; `terminated` records whether the loop
goroutine has returned; `unlockCalls` counts executions of the deferred
`lock.Unlock()` (which runs exactly when the goroutine returns). -/
structure InboundLoopResult where
  acceptsAttempted : Nat
  tasksSpawned : Nat
  terminated : Bool
  unlockCalls : Nat
  loggedAcceptError : Bool
  deriving DecidableEq, Repr, Inhabited

/-- The accept loop of `UnixProxyServiceInbound`:
`for { uc, err := uli.Accept(); if err != nil { logger.Error(...); return }; go func() { ... }() }`
with `defer lock.Unlock()` running when the goroutine returns.  Each
accepted connection is handed to a freshly spawned goroutine, so the loop
consumes the accept stream without consulting any dial outcome. -/
def inboundAcceptLoop : List AcceptOutcome → InboundLoopResult
  | [] => ⟨0, 0, false, 0, false⟩
  | AcceptOutcome.err :: _ => ⟨1, 0, true, 1, true⟩
  | AcceptOutcome.ok :: rest =>
    let r := inboundAcceptLoop rest
    ⟨r.acceptsAttempted + 1, r.tasksSpawned + 1, r.terminated, r.unlockCalls,
      r.loggedAcceptError⟩

/-- Modelled from the spec: `utils.UnixSocketListen` is not under `src/`.
Per the spec ("Must create or replace the socket file at `path` with the
given permission bits"), on success it creates the socket file with exactly
the permission bits it is passed. -/
def unixSocketListenFileMode (permissions : Nat) : Nat := permissions

/-- Observable result of a call to `UnixProxyServiceInbound`:
the returned error, whether the accept-loop goroutine was spawned, the mode
of the created socket file (when listening succeeded), the accept loop's
state, and the per-connection goroutines spawned so far. -/
structure InboundService where
  returnedError : Option String
  loopSpawned : Bool
  socketFileMode : Option Nat
  loop : Option InboundLoopResult
  connTasks : List InboundConnTask
  deriving DecidableEq, Repr

/-- `UnixProxyServiceInbound(s, filename, permissions, node, rservice, tlscfg)`:
calls `utils.UnixSocketListen(filename, permissions)`; on error returns
`fmt.Errorf("error opening Unix socket: %s", err)`; on success spawns the
accept-loop goroutine and returns nil.  The i-th accepted connection's
goroutine observes dial outcome `dials i`. -/
def UnixProxyServiceInbound (permissions : Nat) (listen : Except String Unit)
    (accepts : List AcceptOutcome) (dials : Nat → DialOutcome) : InboundService :=
  match listen with
  | Except.error e =>
    ⟨some ("error opening Unix socket: " ++ e), false, none, none, []⟩
  | Except.ok _ =>
    let lr := inboundAcceptLoop accepts
    ⟨none, true, some (unixSocketListenFileMode permissions), some lr,
      (List.range lr.tasksSpawned).map (fun i => inboundConnTask (dials i))⟩

/-- Fate of one connection accepted from the Receptor network by
`UnixProxyServiceOutbound`.  On dial error the loop body is
`logger.Error(...); continue` — it contains no `qc.Close()`, so
`remoteConnClosed` records whether the loop closes the remote connection
(it never does).  `bridgeSpawned` records `go utils.BridgeConns(...)`. -/
structure OutboundConnFate where
  dialAttempted : Bool
  loggedDialError : Bool
  remoteConnClosed : Bool
  bridgeSpawned : Bool
  deriving DecidableEq, Repr, Inhabited

/-- Observable state of the accept-loop goroutine of
`UnixProxyServiceOutbound`.  `blocked` records that the loop is stuck
inside a synchronous `net.Dial("unix", filename)` that never returned, so
no further `Accept` can be attempted. -/
structure OutboundLoopResult where
  acceptsAttempted : Nat
  terminated : Bool
  blocked : Bool
  loggedAcceptError : Bool
  conns : List OutboundConnFate
  deriving DecidableEq, Repr, Inhabited

/-- The accept loop of `UnixProxyServiceOutbound`:
`for { qc, err := qli.Accept(); if err != nil { logger.Error(...); return }; uc, err := net.Dial("unix", filename); if err != nil { logger.Error(...); continue }; go utils.BridgeConns(qc, ..., uc, ...) }`.
Unlike the inbound service, the dial of the local Unix socket runs in the
loop goroutine itself; only the bridge is spawned.  The counter `i` indexes
dial outcomes by accepted-connection order. -/
def outboundAcceptLoopAux : List AcceptOutcome → (Nat → DialOutcome) → Nat → OutboundLoopResult
  | [], _, _ => ⟨0, false, false, false, []⟩
  | AcceptOutcome.err :: _, _, _ => ⟨1, true, false, true, []⟩
  | AcceptOutcome.ok :: rest, dials, i =>
    match dials i with
    | DialOutcome.stalled => ⟨1, false, true, false, [⟨true, false, false, false⟩]⟩
    | DialOutcome.err =>
      let r := outboundAcceptLoopAux rest dials (i + 1)
      ⟨r.acceptsAttempted + 1, r.terminated, r.blocked, r.loggedAcceptError,
        ⟨true, true, false, false⟩ :: r.conns⟩
    | DialOutcome.ok =>
      let r := outboundAcceptLoopAux rest dials (i + 1)
      ⟨r.acceptsAttempted + 1, r.terminated, r.blocked, r.loggedAcceptError,
        ⟨true, false, false, true⟩ :: r.conns⟩

/-- The outbound accept loop, started with connection index 0. -/
def outboundAcceptLoop (accepts : List AcceptOutcome) (dials : Nat → DialOutcome) :
    OutboundLoopResult :=
  outboundAcceptLoopAux accepts dials 0

/-- The discovery-metadata map passed by `UnixProxyServiceOutbound` to
`s.ListenAndAdvertise`, embedded as an association list:
`map[string]string{"type": "Unix Proxy", "filename": filename}`. -/
def unixProxyOutboundMetadata (filename : String) : List (String × String) :=
  [("type", "Unix Proxy"), ("filename", filename)]

/-- The metadata map the specification describes, written from the spec's
words `{kind: "unix-proxy", path: <local path>}` for comparison with the
map the source actually builds. -/
def unixProxyOutboundSpecMetadata (filename : String) : List (String × String) :=
  [("kind", "unix-proxy"), ("path", filename)]

/-- Observable result of a call to `UnixProxyServiceOutbound`: the returned
error, the service name and metadata passed to `ListenAndAdvertise`,
whether the accept-loop goroutine was spawned, and the loop's state. -/
structure OutboundService where
  returnedError : Option String
  advertiseService : String
  advertiseMetadata : List (String × String)
  loopSpawned : Bool
  loop : Option OutboundLoopResult
  deriving DecidableEq, Repr

/-- `UnixProxyServiceOutbound(s, service, tlscfg, filename)`: calls
`s.ListenAndAdvertise(service, tlscfg, metadata)`; on error returns
`fmt.Errorf("error listening on Receptor network: %s", err)`; on success
spawns the accept-loop goroutine and returns nil. -/
def UnixProxyServiceOutbound (service : String) (filename : String)
    (listen : Except String Unit) (accepts : List AcceptOutcome)
    (dials : Nat → DialOutcome) : OutboundService :=
  match listen with
  | Except.error e =>
    ⟨some ("error listening on Receptor network: " ++ e), service,
      unixProxyOutboundMetadata filename, false, none⟩
  | Except.ok _ =>
    ⟨none, service, unixProxyOutboundMetadata filename, true,
      some (outboundAcceptLoop accepts dials)⟩

/-- Go's `os.FileMode(p)` conversion from `int` to `uint32`: the low 32 bits
of the two's-complement representation. -/
def fileModeOfInt (p : Int) : Nat := (p % (2 : Int) ^ 32).toNat

/-- Modelled from the spec: the `default:"0600"` struct tag of
`unixProxyInboundCfg.Permissions` is applied by the external `cmdline`
library, which is not part of this repository; per the spec the default
permission bits are owner read/write only, i.e. octal 0600. -/
def unixProxyInboundCfgDefaultPermissions : Int := 0o600

/-- Result of running one of the `Run`/`setup` entry points: the returned
error, whether `UnixProxyServiceInbound` was reached, and its result. -/
structure InboundRunResult where
  returnedError : Option String
  serviceCalled : Bool
  service : Option InboundService
  deriving DecidableEq, Repr

/-- Result of running one of the outbound `Run`/`setup` entry points. -/
structure OutboundRunResult where
  returnedError : Option String
  serviceCalled : Bool
  service : Option OutboundService
  deriving DecidableEq, Repr

/-- `unixProxyInboundCfg.Run()`: resolves the TLS client config; on error
returns that error unchanged; otherwise calls `UnixProxyServiceInbound`
with `os.FileMode(cfg.Permissions)` and returns its result.  `tls`
abstracts the outcome of `netceptor.MainInstance.GetClientTLSConfig`. -/
def unixProxyInboundCfgRun (permissions : Int) (tls : Except String Unit)
    (listen : Except String Unit) (accepts : List AcceptOutcome)
    (dials : Nat → DialOutcome) : InboundRunResult :=
  match tls with
  | Except.error e => ⟨some e, false, none⟩
  | Except.ok _ =>
    let svc := UnixProxyServiceInbound (fileModeOfInt permissions) listen accepts dials
    ⟨svc.returnedError, true, some svc⟩

/-- `unixProxyOutboundCfg.Run()`: resolves the TLS server config; on error
returns that error unchanged; otherwise calls `UnixProxyServiceOutbound`. -/
def unixProxyOutboundCfgRun (service : String) (filename : String)
    (tls : Except String Unit) (listen : Except String Unit)
    (accepts : List AcceptOutcome) (dials : Nat → DialOutcome) : OutboundRunResult :=
  match tls with
  | Except.error e => ⟨some e, false, none⟩
  | Except.ok _ =>
    let svc := UnixProxyServiceOutbound service filename listen accepts dials
    ⟨svc.returnedError, true, some svc⟩

/-- The permission computation of `UnixInProxy.setup`:
`perms := 0o600; if p.Permissions != nil { perms = *p.Permissions }`. -/
def unixInProxyPerms : Option Int → Int
  | none => 0o600
  | some p => p

/-- `UnixInProxy.setup(nc)`: computes the permissions, resolves the TLS
config; on error returns
`fmt.Errorf("could not create tls config for unix inbound proxy %s: %w", p.File, err)`;
otherwise calls `UnixProxyServiceInbound` with `os.FileMode(perms)`. -/
def unixInProxySetup (file : String) (permissions : Option Int)
    (tls : Except String Unit) (listen : Except String Unit)
    (accepts : List AcceptOutcome) (dials : Nat → DialOutcome) : InboundRunResult :=
  let perms := unixInProxyPerms permissions
  match tls with
  | Except.error e =>
    ⟨some ("could not create tls config for unix inbound proxy " ++ file ++ ": " ++ e),
      false, none⟩
  | Except.ok _ =>
    let svc := UnixProxyServiceInbound (fileModeOfInt perms) listen accepts dials
    ⟨svc.returnedError, true, some svc⟩

/-- `UnixOutProxy.setup(nc)`: resolves the TLS config; on error returns
`fmt.Errorf("could not create tls config for unix outbound proxy %s: %w", p.File, err)`;
otherwise calls `UnixProxyServiceOutbound`. -/
def unixOutProxySetup (service : String) (file : String)
    (tls : Except String Unit) (listen : Except String Unit)
    (accepts : List AcceptOutcome) (dials : Nat → DialOutcome) : OutboundRunResult :=
  match tls with
  | Except.error e =>
    ⟨some ("could not create tls config for unix outbound proxy " ++ file ++ ": " ++ e),
      false, none⟩
  | Except.ok _ =>
    let svc := UnixProxyServiceOutbound service file listen accepts dials
    ⟨svc.returnedError, true, some svc⟩

/-! Embedding of `pkg/utils/randstr.go`.  `crypto/rand.Int(rand.Reader, 62)`
returns a uniformly random integer in `[0, 62)`; the code discards its
error, so the stream of drawn indices is modelled as an oracle
`r : Nat → Fin 62`. -/

/-- The charset of `RandomString`. -/
def charset : String :=
  "0123456789abcdefghijklmnopqrstuvwxyzABCDEFGHIJKLMNOPQRSTUVWXYZ"

/-- The charset has 62 characters. -/
def charsetLen : (62 : Nat) = charset.data.length := rfl

/-- The loop body of `RandomString` for a non-negative count `k`: draw the
i-th index from the oracle and append `charset[idx]`, `k` times. -/
def randomChars (r : Nat → Fin 62) (k : Nat) : String :=
  String.mk ((List.range k).map (fun i => charset.data.get (Fin.cast charsetLen (r i))))

/-- `RandomString(length)`: builds `make([]byte, 0, length)` — which panics
when `length` is negative (`makeslice: cap out of range`), modelled as
`none` — then appends `length` characters drawn from the charset. -/
def RandomString (r : Nat → Fin 62) (length : Int) : Option String :=
  if length < 0 then none else some (randomChars r length.toNat)

/-- `RandomStringWithPrefix(prefix, length)`:
`fmt.Sprintf("%s%s", prefix, RandomString(length))`; a panic inside
`RandomString` propagates. -/
def RandomStringWithPrefix (r : Nat → Fin 62) (pfx : String) (length : Int) :
    Option String :=
  (RandomString r length).map (fun s => pfx ++ s)

/-- Boolean membership of a character in the charset. -/
def inCharset (c : Char) : Bool := decide (c ∈ charset.data)

/-! Concrete inputs used by witnesses and counterexamples. -/

/-- A successful listen outcome. -/
def listenOk : Except String Unit := Except.ok ()

/-- An accept stream delivering no connection yet. -/
def noAccepts : List AcceptOutcome := []

/-- An accept stream delivering one connection. -/
def oneAccept : List AcceptOutcome := [AcceptOutcome.ok]

/-- An accept stream delivering two connections. -/
def twoAccepts : List AcceptOutcome := [AcceptOutcome.ok, AcceptOutcome.ok]

/-- Dial oracle: every dial fails. -/
def errDials : Nat → DialOutcome := fun _ => DialOutcome.err

/-- Dial oracle: every dial succeeds. -/
def okDials : Nat → DialOutcome := fun _ => DialOutcome.ok

/-- Dial oracle: every dial stalls forever. -/
def stallDials : Nat → DialOutcome := fun _ => DialOutcome.stalled

/-- A fixed randomness oracle that always draws index 0. -/
def zeroOracle : Nat → Fin 62 := fun _ => ⟨0, by decide⟩

/-! Helper lemmas shared by the claims about `randstr.go`. -/

/-- The string built by the loop of `RandomString` has exactly the
requested number of characters. -/
theorem randomChars_length (r : Nat → Fin 62) (k : Nat) :
    (randomChars r k).length = k := by
  show ((List.range k).map _).length = k
  simp

/-- For a non-negative length, `RandomString` succeeds and returns the
string built by its loop. -/
theorem randomString_of_nonneg (r : Nat → Fin 62) (n : Int) (h : 0 ≤ n) :
    RandomString r n = some (randomChars r n.toNat) := by
  simp [RandomString, not_lt.mpr h]

/-- Every character produced by the loop of `RandomString` belongs to the
charset. -/
theorem randomChars_all_inCharset (r : Nat → Fin 62) (k : Nat) :
    (randomChars r k).data.all inCharset = true := by
  rw [List.all_eq_true]
  intro c hc
  simp only [randomChars] at hc
  obtain ⟨i, _, rfl⟩ := List.mem_map.mp hc
  simp only [inCharset, decide_eq_true_eq]
  exact List.get_mem _ _ _

/-! Theorems settling the claims. -/

/-- C1 counterexample: start the inbound service, accept one local
connection whose dial of the Receptor network fails.  The per-connection
goroutine logs the error but does not close the local connection, so the
claim "the local connection is closed" is false on the code. -/
theorem inbound_dial_failure_close_counterexample :
    ((UnixProxyServiceInbound 384 listenOk oneAccept errDials).connTasks.headD
        default).loggedDialError = true
  ∧ ((UnixProxyServiceInbound 384 listenOk oneAccept errDials).connTasks.headD
        default).localConnClosed = false
  ∧ (UnixProxyServiceInbound 384 listenOk oneAccept errDials).connTasks.length = 1 :=
  ⟨rfl, rfl, rfl⟩

/-- C1 (amended): in `UnixProxyServiceInbound`, for every accepted local
connection whose dial of the Receptor network fails, the per-connection
goroutine logs the error and returns without closing the local connection
(which stays open), and the accept loop resumes accepting unaffected: its
state does not depend on any dial outcome. -/
theorem inbound_dial_failure_leaves_conn_open (perms : Nat)
    (listen : Except String Unit) (accepts : List AcceptOutcome)
    (dials dials2 : Nat → DialOutcome) (d : DialOutcome)
    (hd : d = DialOutcome.err) :
    inboundConnTask d = ⟨true, true, false, false, true⟩
  ∧ (UnixProxyServiceInbound perms listen accepts dials).loop
      = (UnixProxyServiceInbound perms listen accepts dials2).loop := by
  subst hd
  refine ⟨rfl, ?_⟩
  cases listen <;> rfl

/-- Witness for C1's amended theorem at a concrete run. -/
theorem inbound_dial_failure_leaves_conn_open_witness :
    inboundConnTask DialOutcome.err = ⟨true, true, false, false, true⟩
  ∧ (UnixProxyServiceInbound 384 listenOk oneAccept errDials).loop
      = (UnixProxyServiceInbound 384 listenOk oneAccept okDials).loop :=
  inbound_dial_failure_leaves_conn_open 384 listenOk oneAccept errDials okDials
    DialOutcome.err rfl

/-- C2 counterexample: the outbound service accepts two network
connections and both dials of the local Unix socket fail.  The loop logs
each error and continues without closing either remote connection, so the
claim "the remote network connection is closed" is false on the code. -/
theorem outbound_dial_failure_close_counterexample :
    outboundAcceptLoop twoAccepts errDials
      = ⟨2, false, false, false,
          [⟨true, true, false, false⟩, ⟨true, true, false, false⟩]⟩
  ∧ ((outboundAcceptLoop twoAccepts errDials).conns.headD default).remoteConnClosed
      = false :=
  ⟨rfl, rfl⟩

/-- C2 (amended): in `UnixProxyServiceOutbound`, for every accepted network
connection whose dial of the local Unix socket fails, the loop logs the
error and continues to the next accept without closing the remote network
connection (which stays open). -/
theorem outbound_dial_failure_leaves_conn_open (rest : List AcceptOutcome)
    (dials : Nat → DialOutcome) (hd : dials 0 = DialOutcome.err) :
    outboundAcceptLoop (AcceptOutcome.ok :: rest) dials
      = ⟨(outboundAcceptLoopAux rest dials 1).acceptsAttempted + 1,
          (outboundAcceptLoopAux rest dials 1).terminated,
          (outboundAcceptLoopAux rest dials 1).blocked,
          (outboundAcceptLoopAux rest dials 1).loggedAcceptError,
          ⟨true, true, false, false⟩ :: (outboundAcceptLoopAux rest dials 1).conns⟩ := by
  simp [outboundAcceptLoop, outboundAcceptLoopAux, hd]

/-- Witness for C2's amended theorem at a concrete run. -/
theorem outbound_dial_failure_leaves_conn_open_witness :
    outboundAcceptLoop (AcceptOutcome.ok :: oneAccept) errDials
      = ⟨(outboundAcceptLoopAux oneAccept errDials 1).acceptsAttempted + 1,
          (outboundAcceptLoopAux oneAccept errDials 1).terminated,
          (outboundAcceptLoopAux oneAccept errDials 1).blocked,
          (outboundAcceptLoopAux oneAccept errDials 1).loggedAcceptError,
          ⟨true, true, false, false⟩ :: (outboundAcceptLoopAux oneAccept errDials 1).conns⟩ :=
  outbound_dial_failure_leaves_conn_open oneAccept errDials rfl

/-- C3 counterexample: in the outbound service a stalled dial of the local
Unix socket freezes the accept loop itself — with two incoming network
connections and a first dial that never returns, only one accept is ever
attempted, so the claim that the dial always runs in its own spawned task
and never blocks the accept loop is false on the code. -/
theorem outbound_stalled_dial_blocks_counterexample :
    (outboundAcceptLoop twoAccepts stallDials).blocked = true
  ∧ (outboundAcceptLoop twoAccepts stallDials).acceptsAttempted = 1
  ∧ (outboundAcceptLoop twoAccepts stallDials).conns.length = 1 :=
  ⟨rfl, rfl, rfl⟩

/-- C3 (amended): in `UnixProxyServiceInbound` every accepted connection
spawns its own goroutine performing both the dial and the bridge, so the
accept loop's state never depends on dial outcomes (a stalled dial only
freezes its own goroutine); in `UnixProxyServiceOutbound` the dial of the
local Unix socket runs synchronously in the accept loop and only the
bridge is spawned, so a stalled dial blocks the accept loop and all later
connections. -/
theorem dial_task_structure (perms : Nat) (listen : Except String Unit)
    (accepts : List AcceptOutcome) (dials dials2 : Nat → DialOutcome)
    (rest : List AcceptOutcome) (dials3 : Nat → DialOutcome)
    (hstall : dials3 0 = DialOutcome.stalled) :
    (UnixProxyServiceInbound perms listen accepts dials).loop
      = (UnixProxyServiceInbound perms listen accepts dials2).loop
  ∧ inboundConnTask DialOutcome.ok = ⟨true, false, false, true, true⟩
  ∧ inboundConnTask DialOutcome.stalled = ⟨true, false, false, false, false⟩
  ∧ outboundAcceptLoop (AcceptOutcome.ok :: rest) dials3
      = ⟨1, false, true, false, [⟨true, false, false, false⟩]⟩ := by
  refine ⟨?_, rfl, rfl, ?_⟩
  · cases listen <;> rfl
  · simp [outboundAcceptLoop, outboundAcceptLoopAux, hstall]

/-- Witness for C3's amended theorem at a concrete run. -/
theorem dial_task_structure_witness :
    (UnixProxyServiceInbound 384 listenOk oneAccept errDials).loop
      = (UnixProxyServiceInbound 384 listenOk oneAccept okDials).loop
  ∧ inboundConnTask DialOutcome.ok = ⟨true, false, false, true, true⟩
  ∧ inboundConnTask DialOutcome.stalled = ⟨true, false, false, false, false⟩
  ∧ outboundAcceptLoop (AcceptOutcome.ok :: oneAccept) stallDials
      = ⟨1, false, true, false, [⟨true, false, false, false⟩]⟩ :=
  dial_task_structure 384 listenOk oneAccept errDials okDials oneAccept stallDials rfl

/-- C4: if setup fails (`UnixSocketListen` in the inbound service,
`ListenAndAdvertise` in the outbound one), the function returns a non-nil
error synchronously and spawns no accept-loop goroutine, leaving no
partial state running; otherwise it returns nil. -/
theorem setup_failure_is_synchronous (perms : Nat) (e : String)
    (svcName filename : String) (accepts : List AcceptOutcome)
    (dials : Nat → DialOutcome) :
    UnixProxyServiceInbound perms (Except.error e) accepts dials
      = ⟨some ("error opening Unix socket: " ++ e), false, none, none, []⟩
  ∧ (UnixProxyServiceInbound perms (Except.ok ()) accepts dials).returnedError = none
  ∧ (UnixProxyServiceInbound perms (Except.ok ()) accepts dials).loopSpawned = true
  ∧ (UnixProxyServiceOutbound svcName filename (Except.error e) accepts dials).returnedError
      = some ("error listening on Receptor network: " ++ e)
  ∧ (UnixProxyServiceOutbound svcName filename (Except.error e) accepts dials).loopSpawned
      = false
  ∧ (UnixProxyServiceOutbound svcName filename (Except.error e) accepts dials).loop = none
  ∧ (UnixProxyServiceOutbound svcName filename (Except.ok ()) accepts dials).returnedError
      = none
  ∧ (UnixProxyServiceOutbound svcName filename (Except.ok ()) accepts dials).loopSpawned
      = true :=
  ⟨rfl, rfl, rfl, rfl, rfl, rfl, rfl, rfl⟩

/-- C5: in the inbound service an `Accept` error is terminal — the loop
logs it, attempts no further accept and the deferred `lock.Unlock()` runs
exactly once; when no accept error has occurred the loop is still running
and the lock is still held.  This is the only condition after successful
setup that stops the loop. -/
theorem inbound_accept_error_terminal (accepts : List AcceptOutcome) :
    (AcceptOutcome.err ∈ accepts →
      inboundAcceptLoop accepts
        = ⟨(accepts.takeWhile isOk).length + 1, (accepts.takeWhile isOk).length,
            true, 1, true⟩)
  ∧ (AcceptOutcome.err ∉ accepts →
      inboundAcceptLoop accepts = ⟨accepts.length, accepts.length, false, 0, false⟩) := by
  induction accepts with
  | nil =>
    exact ⟨fun h => absurd h (List.not_mem_nil _), fun _ => rfl⟩
  | cons a rest ih =>
    cases a with
    | err =>
      refine ⟨fun _ => ?_, fun h => absurd (List.mem_cons_self _ _) h⟩
      simp [inboundAcceptLoop, List.takeWhile_cons, isOk]
    | ok =>
      refine ⟨fun h => ?_, fun h => ?_⟩
      · have h' : AcceptOutcome.err ∈ rest := by
          rcases List.mem_cons.mp h with h1 | h1
          · exact absurd h1 (by decide)
          · exact h1
        have he := ih.1 h'
        simp [inboundAcceptLoop, he, List.takeWhile_cons, isOk]
      · have h' : AcceptOutcome.err ∉ rest := fun hr => h (List.mem_cons_of_mem _ hr)
        have he := ih.2 h'
        simp [inboundAcceptLoop, he]

/-- Witness for C5's theorem: one successful accept, then an accept error,
with a further connection that is never accepted. -/
theorem inbound_accept_error_terminal_witness :
    inboundAcceptLoop [AcceptOutcome.ok, AcceptOutcome.err, AcceptOutcome.ok]
      = ⟨([AcceptOutcome.ok, AcceptOutcome.err, AcceptOutcome.ok].takeWhile isOk).length + 1,
          ([AcceptOutcome.ok, AcceptOutcome.err, AcceptOutcome.ok].takeWhile isOk).length,
          true, 1, true⟩ :=
  (inbound_accept_error_terminal
    [AcceptOutcome.ok, AcceptOutcome.err, AcceptOutcome.ok]).1 (by decide)

/-- C6 counterexample: the metadata the outbound service actually passes
to `ListenAndAdvertise` has keys "type" and "filename" (with kind value
"Unix Proxy"), not the keys "kind" and "path" with value "unix-proxy"
stated by the claim. -/
theorem outbound_metadata_counterexample :
    (UnixProxyServiceOutbound "svc" "/tmp/sock" listenOk noAccepts okDials).advertiseMetadata
      ≠ unixProxyOutboundSpecMetadata "/tmp/sock"
  ∧ ((UnixProxyServiceOutbound "svc" "/tmp/sock" listenOk noAccepts okDials).advertiseMetadata).lookup
      "kind" = none
  ∧ ((UnixProxyServiceOutbound "svc" "/tmp/sock" listenOk noAccepts okDials).advertiseMetadata).lookup
      "type" = some "Unix Proxy" :=
  ⟨by decide, rfl, rfl⟩

/-- C6 (amended): `UnixProxyServiceOutbound` advertises its service with
discovery metadata exactly equal to the map
`{"type": "Unix Proxy", "filename": <the configured local socket path>}`,
whatever the outcome of the listen. -/
theorem outbound_advertises_type_and_filename (svcName f : String)
    (listen : Except String Unit) (accepts : List AcceptOutcome)
    (dials : Nat → DialOutcome) :
    (UnixProxyServiceOutbound svcName f listen accepts dials).advertiseService = svcName
  ∧ (UnixProxyServiceOutbound svcName f listen accepts dials).advertiseMetadata
      = [("type", "Unix Proxy"), ("filename", f)] := by
  cases listen <;> exact ⟨rfl, rfl⟩

/-- C7: when resolving the TLS profile fails, every `Run`/`setup` entry
point returns the error (the `setup` methods wrap it in their own message)
without ever calling `UnixProxyServiceInbound` / `UnixProxyServiceOutbound`,
so no socket or network activity begins. -/
theorem tls_failure_aborts_before_service (perm : Int) (permissions : Option Int)
    (file svcName e : String) (listen : Except String Unit)
    (accepts : List AcceptOutcome) (dials : Nat → DialOutcome)
    (tls : Except String Unit) (htls : tls = Except.error e) :
    unixProxyInboundCfgRun perm tls listen accepts dials = ⟨some e, false, none⟩
  ∧ unixProxyOutboundCfgRun svcName file tls listen accepts dials = ⟨some e, false, none⟩
  ∧ unixInProxySetup file permissions tls listen accepts dials
      = ⟨some ("could not create tls config for unix inbound proxy " ++ file ++ ": " ++ e),
          false, none⟩
  ∧ unixOutProxySetup svcName file tls listen accepts dials
      = ⟨some ("could not create tls config for unix outbound proxy " ++ file ++ ": " ++ e),
          false, none⟩ := by
  subst htls
  exact ⟨rfl, rfl, rfl, rfl⟩

/-- Witness for C7's theorem at a concrete failing TLS resolution. -/
theorem tls_failure_aborts_before_service_witness :
    unixProxyInboundCfgRun 384 (Except.error "boom") listenOk noAccepts okDials
      = ⟨some "boom", false, none⟩
  ∧ unixProxyOutboundCfgRun "svc" "/tmp/sock" (Except.error "boom") listenOk noAccepts okDials
      = ⟨some "boom", false, none⟩
  ∧ unixInProxySetup "/tmp/sock" none (Except.error "boom") listenOk noAccepts okDials
      = ⟨some ("could not create tls config for unix inbound proxy " ++ "/tmp/sock"
          ++ ": " ++ "boom"), false, none⟩
  ∧ unixOutProxySetup "svc" "/tmp/sock" (Except.error "boom") listenOk noAccepts okDials
      = ⟨some ("could not create tls config for unix outbound proxy " ++ "/tmp/sock"
          ++ ": " ++ "boom"), false, none⟩ :=
  tls_failure_aborts_before_service 384 none "/tmp/sock" "svc" "boom" listenOk
    noAccepts okDials (Except.error "boom") rfl

/-- C8: when the permission bits are left unspecified, both inbound
configuration paths (`UnixInProxy.setup` with a nil `Permissions` pointer,
and `unixProxyInboundCfg` with its default tag) hand `os.FileMode(0o600)`
to `UnixSocketListen`, so the local socket file is created with
permissions 0600. -/
theorem default_permissions_are_0600 (file : String)
    (accepts : List AcceptOutcome) (dials : Nat → DialOutcome)
    (tls listen : Except String Unit)
    (htls : tls = Except.ok ()) (hlisten : listen = Except.ok ()) :
    fileModeOfInt (unixInProxyPerms none) = 0o600
  ∧ fileModeOfInt unixProxyInboundCfgDefaultPermissions = 0o600
  ∧ ((unixInProxySetup file none tls listen accepts dials).service).map
      InboundService.socketFileMode = some (some (unixSocketListenFileMode 0o600))
  ∧ ((unixProxyInboundCfgRun unixProxyInboundCfgDefaultPermissions tls listen
      accepts dials).service).map InboundService.socketFileMode
      = some (some (unixSocketListenFileMode 0o600)) := by
  subst htls
  subst hlisten
  exact ⟨rfl, rfl, rfl, rfl⟩

/-- Witness for C8's theorem at a concrete run. -/
theorem default_permissions_are_0600_witness :
    fileModeOfInt (unixInProxyPerms none) = 0o600
  ∧ fileModeOfInt unixProxyInboundCfgDefaultPermissions = 0o600
  ∧ ((unixInProxySetup "/tmp/sock" none listenOk listenOk oneAccept okDials).service).map
      InboundService.socketFileMode = some (some (unixSocketListenFileMode 0o600))
  ∧ ((unixProxyInboundCfgRun unixProxyInboundCfgDefaultPermissions listenOk listenOk
      oneAccept okDials).service).map InboundService.socketFileMode
      = some (some (unixSocketListenFileMode 0o600)) :=
  default_permissions_are_0600 "/tmp/sock" oneAccept okDials listenOk listenOk rfl rfl

/-- C9 counterexample: for a negative length the claim says `RandomString`
returns the empty string, but `make([]byte, 0, length)` panics on a
negative capacity, so the call never returns a string at all. -/
theorem randomString_negative_counterexample :
    RandomString zeroOracle (-1) = none
  ∧ RandomString zeroOracle (-1) ≠ some "" :=
  ⟨rfl, by decide⟩

/-- C9 (amended): for every non-negative `n`, `RandomString` returns a
string of length exactly `n` all of whose characters belong to the
62-character alphanumeric charset, and for `n = 0` that string is empty;
for negative `n` the call panics instead of returning the empty string. -/
theorem randomString_length_and_charset (r : Nat → Fin 62) (n : Int) :
    (0 ≤ n →
      RandomString r n = some (randomChars r n.toNat)
      ∧ (randomChars r n.toNat).length = n.toNat
      ∧ (randomChars r n.toNat).data.all inCharset = true)
  ∧ (n < 0 → RandomString r n = none)
  ∧ RandomString r 0 = some "" := by
  refine ⟨fun h => ⟨randomString_of_nonneg r n h, randomChars_length r n.toNat,
    randomChars_all_inCharset r n.toNat⟩, fun h => ?_, rfl⟩
  simp [RandomString, h]

/-- Witness for C9's amended theorem at lengths 3 and -2. -/
theorem randomString_length_and_charset_witness :
    (RandomString zeroOracle 3 = some (randomChars zeroOracle (3 : Int).toNat)
      ∧ (randomChars zeroOracle (3 : Int).toNat).length = (3 : Int).toNat
      ∧ (randomChars zeroOracle (3 : Int).toNat).data.all inCharset = true)
  ∧ RandomString zeroOracle (-2) = none :=
  ⟨(randomString_length_and_charset zeroOracle 3).1 (by decide),
    (randomString_length_and_charset zeroOracle (-2)).2.1 (by decide)⟩

/-- C10: for every non-negative `n`, `RandomStringWithPrefix(p, n)` returns
a string that begins with `p` character-for-character (it is `p` followed
by the generated characters) and has total length `p.length + n`. -/
theorem randomStringWithPrefix_spec (r : Nat → Fin 62) (pfx : String) (n : Int)
    (h : 0 ≤ n) :
    RandomStringWithPrefix r pfx n = some (pfx ++ randomChars r n.toNat)
  ∧ (pfx ++ randomChars r n.toNat).length = pfx.length + n.toNat := by
  refine ⟨?_, ?_⟩
  · simp [RandomStringWithPrefix, randomString_of_nonneg r n h]
  · rw [String.length_append, randomChars_length]

/-- Witness for C10's theorem at a concrete prefix and length. -/
theorem randomStringWithPrefix_spec_witness :
    RandomStringWithPrefix zeroOracle "conn-" 4
      = some ("conn-" ++ randomChars zeroOracle (4 : Int).toNat)
  ∧ ("conn-" ++ randomChars zeroOracle (4 : Int).toNat).length
      = "conn-".length + (4 : Int).toNat :=
  randomStringWithPrefix_spec zeroOracle "conn-" 4 (by decide)

end Receptor
